import Mathlib

/-!
Verification of the inventory polling-and-diff engine.

The repository has two variants of the bot:
* `bot.js` — the multi-account variant: `fetchInventory` (retry/backoff),
  `diffInventories` (multiset diff), `checkChanges` (one sweep over all
  configured accounts), startup configuration parsing, and a `setInterval`
  driven periodic loop.
* the lightweight single-account variant: a single stored snapshot, an
  inline set-based diff (`filter`/`includes`), and a 60 s interval.

All definitions below are shallow embeddings of those source functions.
-/

namespace InventoryBot

/-! ## Diff Engine (`diffInventories`, bot.js lines 88–112) -/

/-- Result of `diffInventories`: the `added` and `removed` arrays of
formatted entries pushed by the source. -/
structure Diff where
  added : List String
  removed : List String
deriving Repr, DecidableEq

/-- One formatted diff entry, the template string pushed by the source:
the item name followed by ` x` and the count delta. -/
def entry (name : String) (delta : Nat) : String :=
  name ++ " x" ++ toString delta

/-- First-occurrence deduplication: the iteration order of
`new Set([...Object.keys(oldCounts), ...Object.keys(newCounts)])` in the
source — a JS `Set` keeps insertion order and drops later duplicates. -/
def insertionDedup (l : List String) : List String :=
  l.foldl (fun acc x => if x ∈ acc then acc else acc ++ [x]) []

/-- Names for which `diffInventories` pushes an `added` entry:
names in either list with `newCount > oldCount` (source line 107). -/
def addedNames (oldItems newItems : List String) : List String :=
  (insertionDedup (oldItems ++ newItems)).filter
    (fun n => newItems.count n > oldItems.count n)

/-- Names for which `diffInventories` pushes a `removed` entry:
names in either list with `oldCount > newCount` (source line 108). -/
def removedNames (oldItems newItems : List String) : List String :=
  (insertionDedup (oldItems ++ newItems)).filter
    (fun n => oldItems.count n > newItems.count n)

/-- `diffInventories(oldItems, newItems)` from bot.js: builds per-name
occurrence counts of both lists, walks the set of all names, and pushes
`name xdelta` into `added` when the new count is larger and into
`removed` when the old count is larger. -/
def diffInventories (oldItems newItems : List String) : Diff :=
  { added := (addedNames oldItems newItems).map
      (fun n => entry n (newItems.count n - oldItems.count n)),
    removed := (removedNames oldItems newItems).map
      (fun n => entry n (oldItems.count n - newItems.count n)) }

/-! ## The lightweight variant's inline diff (part_000 lines 54–55):
`items.filter(x => !lastItems.includes(x))` and
`lastItems.filter(x => !items.includes(x))`. -/

/-- `added` of the lightweight variant: current items not present
(as a set) in the stored snapshot. -/
def lightAdded (lastItems items : List String) : List String :=
  items.filter (fun x => ! lastItems.contains x)

/-- `removed` of the lightweight variant: stored items not present
(as a set) in the current snapshot. -/
def lightRemoved (lastItems items : List String) : List String :=
  lastItems.filter (fun x => ! items.contains x)

/-! ## Basic lemmas about the deduplicated name list -/

theorem mem_insertionDedup_go (l : List String) :
    ∀ (acc : List String) (x : String),
      x ∈ l.foldl (fun acc y => if y ∈ acc then acc else acc ++ [y]) acc ↔
        x ∈ acc ∨ x ∈ l := by
  induction l with
  | nil => intro acc x; simp
  | cons a t ih =>
    intro acc x
    by_cases ha : a ∈ acc
    · simp only [List.foldl_cons, if_pos ha, ih]
      constructor
      · rintro (hx | hx)
        · exact Or.inl hx
        · exact Or.inr (List.mem_cons_of_mem _ hx)
      · rintro (hx | hx)
        · exact Or.inl hx
        · rcases List.mem_cons.mp hx with rfl | hx
          · exact Or.inl ha
          · exact Or.inr hx
    · simp only [List.foldl_cons, if_neg ha, ih, List.mem_append,
        List.mem_singleton, List.mem_cons]
      tauto

theorem mem_insertionDedup (x : String) (l : List String) :
    x ∈ insertionDedup l ↔ x ∈ l := by
  unfold insertionDedup
  rw [mem_insertionDedup_go]
  simp

theorem nodup_insertionDedup_go (l : List String) :
    ∀ acc : List String, acc.Nodup →
      (l.foldl (fun acc y => if y ∈ acc then acc else acc ++ [y]) acc).Nodup := by
  induction l with
  | nil => intro acc h; simpa using h
  | cons a t ih =>
    intro acc h
    by_cases ha : a ∈ acc
    · simpa [List.foldl_cons, if_pos ha] using ih acc h
    · rw [List.foldl_cons, if_neg ha]
      refine ih (acc ++ [a]) ?_
      simp [List.nodup_append, h, ha]

theorem nodup_insertionDedup (l : List String) : (insertionDedup l).Nodup :=
  nodup_insertionDedup_go l [] List.nodup_nil

theorem diffInventories_added_eq_nil (oldItems newItems : List String) :
    (diffInventories oldItems newItems).added = [] ↔
      ∀ n, ¬ (oldItems.count n < newItems.count n) := by
  simp only [diffInventories, addedNames, List.map_eq_nil_iff, List.filter_eq_nil_iff,
    mem_insertionDedup, List.mem_append, decide_eq_true_eq, gt_iff_lt]
  constructor
  · intro h n hlt
    have hmem : n ∈ oldItems ∨ n ∈ newItems := by
      right
      exact List.count_pos_iff.mp (Nat.lt_of_le_of_lt (Nat.zero_le _) hlt)
    exact h n hmem hlt
  · intro h n _ hlt
    exact h n hlt

theorem diffInventories_removed_eq_nil (oldItems newItems : List String) :
    (diffInventories oldItems newItems).removed = [] ↔
      ∀ n, ¬ (newItems.count n < oldItems.count n) := by
  simp only [diffInventories, removedNames, List.map_eq_nil_iff, List.filter_eq_nil_iff,
    mem_insertionDedup, List.mem_append, decide_eq_true_eq, gt_iff_lt]
  constructor
  · intro h n hlt
    have hmem : n ∈ oldItems ∨ n ∈ newItems := by
      left
      exact List.count_pos_iff.mp (Nat.lt_of_le_of_lt (Nat.zero_le _) hlt)
    exact h n hmem hlt
  · intro h n _ hlt
    exact h n hlt

/-- **C1** (amended). `diffInventories` is a pure function and its result
is empty exactly when the two snapshots are equal as multisets of item
identifiers; in particular `diffInventories S S` is empty for every `S`.
The lightweight variant's inline set-based diff (part_000) satisfies only
the forward direction: equal multisets give an empty result (hence it is
also empty on `(S, S)`), but it can be empty on unequal multisets. -/
theorem diffInventories_empty_iff (oldItems newItems : List String) :
    (((diffInventories oldItems newItems).added = [] ∧
      (diffInventories oldItems newItems).removed = []) ↔
      (oldItems : Multiset String) = (newItems : Multiset String)) ∧
    ((oldItems : Multiset String) = (newItems : Multiset String) →
      lightAdded oldItems newItems = [] ∧ lightRemoved oldItems newItems = []) := by
  constructor
  · rw [Multiset.coe_eq_coe, List.perm_iff_count,
      diffInventories_added_eq_nil, diffInventories_removed_eq_nil]
    constructor
    · rintro ⟨h1, h2⟩ n
      have := h1 n
      have := h2 n
      omega
    · intro h
      exact ⟨fun n => by simp [h n], fun n => by simp [h n]⟩
  · intro h
    have hc : ∀ n, oldItems.count n = newItems.count n :=
      List.perm_iff_count.mp (Multiset.coe_eq_coe.mp h)
    constructor
    · rw [lightAdded, List.filter_eq_nil_iff]
      intro a ha
      have hmem : a ∈ oldItems :=
        List.count_pos_iff.mp (by rw [hc a]; exact List.count_pos_iff.mpr ha)
      simp [List.contains, List.elem_iff, hmem]
    · rw [lightRemoved, List.filter_eq_nil_iff]
      intro a ha
      have hmem : a ∈ newItems :=
        List.count_pos_iff.mp (by rw [← hc a]; exact List.count_pos_iff.mpr ha)
      simp [List.contains, List.elem_iff, hmem]

/-- Witness for **C1**: a concrete pair of multiset-equal snapshots on
which the lightweight diff is empty. -/
theorem diffInventories_empty_iff_witness :
    lightAdded ["a", "b"] ["b", "a"] = [] ∧ lightRemoved ["a", "b"] ["b", "a"] = [] :=
  (diffInventories_empty_iff ["a", "b"] ["b", "a"]).2 (by decide)

/-- Counterexample for **C1** as stated: on the snapshots `["a", "a"]`
(previous) and `["a"]` (current), which are NOT equal as multisets, the
lightweight variant's diff (part_000 lines 54–55) is nevertheless empty,
so "result is empty only if the snapshots are equal as multisets" fails
for that diff operation. -/
theorem lightDiff_empty_on_unequal_multisets :
    lightAdded ["a", "a"] ["a"] = [] ∧ lightRemoved ["a", "a"] ["a"] = [] ∧
      (["a", "a"] : Multiset String) ≠ (["a"] : Multiset String) :=
  ⟨by decide, by decide, by decide⟩

/-- **C8**. The additions of `diffInventories A B` are exactly the
removals of `diffInventories B A` (as sets of formatted
(identifier, delta) entries), and vice versa. -/
theorem diffInventories_symm (a b : List String) :
    (∀ s, s ∈ (diffInventories a b).added ↔ s ∈ (diffInventories b a).removed) ∧
    (∀ s, s ∈ (diffInventories a b).removed ↔ s ∈ (diffInventories b a).added) := by
  simp only [diffInventories, addedNames, removedNames, List.mem_map, List.mem_filter,
    mem_insertionDedup, List.mem_append, decide_eq_true_eq, gt_iff_lt]
  constructor <;> intro s <;> constructor <;> rintro ⟨n, ⟨hn, hlt⟩, rfl⟩ <;>
    exact ⟨n, ⟨hn.symm, hlt⟩, rfl⟩

/-- Witness for **C8** at a concrete pair of snapshots. -/
theorem diffInventories_symm_witness :
    "a x1" ∈ (diffInventories [] ["a"]).added ↔
      "a x1" ∈ (diffInventories ["a"] []).removed :=
  (diffInventories_symm [] ["a"]).1 "a x1"

/-- **C9**. Every `added` entry of `diffInventories` is `entry n d` for a
name `n` with `d = newCount − oldCount ≥ 1`, every `removed` entry is
`entry n d` with `d = oldCount − newCount ≥ 1`, no name generates entries
in both lists, and the generating name lists are duplicate-free, so each
identifier contributes at most one entry in total. -/
theorem diffInventories_entry_invariants (oldItems newItems : List String) :
    (diffInventories oldItems newItems).added = (addedNames oldItems newItems).map
        (fun n => entry n (newItems.count n - oldItems.count n)) ∧
    (diffInventories oldItems newItems).removed = (removedNames oldItems newItems).map
        (fun n => entry n (oldItems.count n - newItems.count n)) ∧
    (∀ n ∈ addedNames oldItems newItems, 1 ≤ newItems.count n - oldItems.count n) ∧
    (∀ n ∈ removedNames oldItems newItems, 1 ≤ oldItems.count n - newItems.count n) ∧
    (∀ n, ¬ (n ∈ addedNames oldItems newItems ∧ n ∈ removedNames oldItems newItems)) ∧
    (addedNames oldItems newItems).Nodup ∧ (removedNames oldItems newItems).Nodup := by
  refine ⟨rfl, rfl, ?_, ?_, ?_, ?_, ?_⟩
  · intro n hn
    have := (List.mem_filter.mp hn).2
    simp only [decide_eq_true_eq, gt_iff_lt] at this
    omega
  · intro n hn
    have := (List.mem_filter.mp hn).2
    simp only [decide_eq_true_eq, gt_iff_lt] at this
    omega
  · rintro n ⟨h1, h2⟩
    have hlt1 := (List.mem_filter.mp h1).2
    have hlt2 := (List.mem_filter.mp h2).2
    simp only [decide_eq_true_eq, gt_iff_lt] at hlt1 hlt2
    omega
  · exact (nodup_insertionDedup _).filter _
  · exact (nodup_insertionDedup _).filter _

/-- Witness for **C9** at a concrete pair of snapshots. -/
theorem diffInventories_entry_invariants_witness :
    1 ≤ List.count "b" ["b"] - List.count "b" ([] : List String) :=
  (diffInventories_entry_invariants [] ["b"]).2.2.1 "b" (by decide)

/-! ## Snapshot Fetcher (`fetchInventory`, bot.js lines 35–85)

The external HTTP source is modelled as a function from the attempt
number to the response received by that attempt. -/

/-- One raw record of the response's `assets` list. -/
structure Asset where
  classid : String
  instanceid : String
deriving Repr, DecidableEq

/-- One record of the response's `descriptions` list. -/
structure Desc where
  classid : String
  instanceid : String
  market_hash_name : String
deriving Repr, DecidableEq

/-- Parsed JSON body: each of the two lists may be absent
(`!data.assets || !data.descriptions`, line 65). -/
structure InvBody where
  assets : Option (List Asset)
  descriptions : Option (List Desc)
deriving Repr, DecidableEq

/-- A response observed by one attempt: an HTTP status with a parsed
body, or a transport-level failure (the `catch` branch, line 75). -/
inductive Response where
  | status (code : Nat) (body : InvBody)
  | networkError
deriving Repr, DecidableEq

/-- Normalization of raw records (lines 67–70): each asset is resolved
to the `market_hash_name` of the first description matching its
`classid`/`instanceid` pair; `.filter(Boolean)` then drops unresolved
entries (`null`) and empty names (both falsy in JS). -/
def resolveItems (assets : List Asset) (descriptions : List Desc) : List String :=
  (assets.map (fun asset =>
      (descriptions.find? (fun d =>
          d.classid == asset.classid && d.instanceid == asset.instanceid)).map
        (fun d => d.market_hash_name))).filterMap
    (fun o => match o with
      | some s => if s = "" then none else some s
      | none => none)

/-- Exponential backoff wait on a 429 (line 46): `2^attempt` minutes. -/
def backoffMs (attempt : Nat) : Nat := 2 ^ attempt * 60000

/-- Outcome of one `fetchInventory` call: the returned value
(`none` = the JS `null`, i.e. FetchError; `some items` = a snapshot),
how many HTTP requests were issued, and the total awaited delay. -/
structure FetchResult where
  outcome : Option (List String)
  requests : Nat
  delayMs : Nat
deriving Repr, DecidableEq

/-- The retry loop of `fetchInventory` (lines 38–83). `attempt` is the
loop counter, `fuel` the remaining iterations (`maxRetries + 1 - attempt`);
a 429 backs off and retries while `attempt < maxRetries`, any other
non-2xx status returns `null` at once, a transport error retries after
5000 ms, and a 2xx body missing either list yields the empty snapshot. -/
def fetchLoop (resp : Nat → Response) (maxRetries attempt fuel : Nat) : FetchResult :=
  match fuel with
  | 0 => { outcome := none, requests := 0, delayMs := 0 }
  | Nat.succ fuel' =>
    match resp attempt with
    | Response.networkError =>
      if attempt < maxRetries then
        let r := fetchLoop resp maxRetries (attempt + 1) fuel'
        { outcome := r.outcome, requests := r.requests + 1, delayMs := r.delayMs + 5000 }
      else { outcome := none, requests := 1, delayMs := 0 }
    | Response.status code body =>
      if code = 429 then
        if attempt < maxRetries then
          let r := fetchLoop resp maxRetries (attempt + 1) fuel'
          { outcome := r.outcome, requests := r.requests + 1,
            delayMs := r.delayMs + backoffMs attempt }
        else { outcome := none, requests := 1, delayMs := 0 }
      else if 200 ≤ code ∧ code ≤ 299 then
        match body.assets, body.descriptions with
        | some assets, some descriptions =>
          { outcome := some (resolveItems assets descriptions), requests := 1, delayMs := 0 }
        | _, _ => { outcome := some [], requests := 1, delayMs := 0 }
      else { outcome := none, requests := 1, delayMs := 0 }

/-- `fetchInventory(steamId, maxRetries = 3)`: attempts run from 1 up to
`maxRetries`. -/
def fetchInventory (resp : Nat → Response) : FetchResult :=
  fetchLoop resp 3 1 3

/-- **C4**. With max-retries = 3, three consecutive 429 responses
produce exactly three requests (no retry after the third), the backoff
waits of attempts 1 and 2 only, and the FetchError value `null`; and a
non-429, non-2xx first response produces FetchError immediately, after
exactly one request and no waiting. -/
theorem fetchInventory_retry_policy (resp resp2 : Nat → Response) (code : Nat)
    (body : InvBody)
    (h429 : ∀ a, ∃ b, resp a = Response.status 429 b)
    (h1 : resp2 1 = Response.status code body)
    (hnot429 : code ≠ 429) (hnotok : ¬ (200 ≤ code ∧ code ≤ 299)) :
    ((fetchInventory resp).requests = 3 ∧ (fetchInventory resp).outcome = none ∧
      (fetchInventory resp).delayMs = backoffMs 1 + backoffMs 2) ∧
    ((fetchInventory resp2).requests = 1 ∧ (fetchInventory resp2).outcome = none ∧
      (fetchInventory resp2).delayMs = 0) := by
  obtain ⟨b1, e1⟩ := h429 1
  obtain ⟨b2, e2⟩ := h429 2
  obtain ⟨b3, e3⟩ := h429 3
  constructor
  · simp [fetchInventory, fetchLoop, e1, e2, e3]
    omega
  · simp [fetchInventory, fetchLoop, h1, hnot429, hnotok]

/-- Witness for **C4**: the concrete all-429 source and a concrete 500
response. -/
theorem fetchInventory_retry_policy_witness :
    ((fetchInventory (fun _ => Response.status 429 ⟨none, none⟩)).requests = 3 ∧
      (fetchInventory (fun _ => Response.status 429 ⟨none, none⟩)).outcome = none ∧
      (fetchInventory (fun _ => Response.status 429 ⟨none, none⟩)).delayMs =
        backoffMs 1 + backoffMs 2) ∧
    ((fetchInventory (fun _ => Response.status 500 ⟨none, none⟩)).requests = 1 ∧
      (fetchInventory (fun _ => Response.status 500 ⟨none, none⟩)).outcome = none ∧
      (fetchInventory (fun _ => Response.status 500 ⟨none, none⟩)).delayMs = 0) :=
  fetchInventory_retry_policy (fun _ => Response.status 429 ⟨none, none⟩)
    (fun _ => Response.status 500 ⟨none, none⟩) 500 ⟨none, none⟩
    (fun _ => ⟨⟨none, none⟩, rfl⟩) rfl (by decide) (by decide)

/-- **C7**. A 2xx response whose body lacks the `assets` list or the
`descriptions` list makes the fetch return the empty snapshot
`some []`, which is distinct from the FetchError value `none`. -/
theorem fetchInventory_missing_lists_empty (resp : Nat → Response) (code : Nat)
    (body : InvBody) (h1 : resp 1 = Response.status code body)
    (hok : 200 ≤ code ∧ code ≤ 299)
    (hmiss : body.assets = none ∨ body.descriptions = none) :
    (fetchInventory resp).outcome = some [] ∧ (fetchInventory resp).outcome ≠ none := by
  have hnot429 : ¬ code = 429 := by omega
  have hbody : (match body.assets, body.descriptions with
      | some assets, some descriptions =>
        { outcome := some (resolveItems assets descriptions), requests := 1, delayMs := 0 }
      | _, _ => ({ outcome := some [], requests := 1, delayMs := 0 } : FetchResult)) =
      ({ outcome := some [], requests := 1, delayMs := 0 } : FetchResult) := by
    rcases hmiss with hm | hm <;>
      (cases ha : body.assets <;> cases hd : body.descriptions <;> simp_all)
  simp [fetchInventory, fetchLoop, h1, hnot429, hok, hbody]

/-- Witness for **C7**: a concrete 200 response with no `assets` list. -/
theorem fetchInventory_missing_lists_empty_witness :
    (fetchInventory (fun _ => Response.status 200 ⟨none, some []⟩)).outcome = some [] ∧
      (fetchInventory (fun _ => Response.status 200 ⟨none, some []⟩)).outcome ≠ none :=
  fetchInventory_missing_lists_empty (fun _ => Response.status 200 ⟨none, some []⟩)
    200 ⟨none, some []⟩ rfl (by decide) (Or.inl rfl)

/-! ## Scheduler: one sweep (`checkChanges`, bot.js lines 118–155)

The Discord channel is modelled by whether `client.channels.fetch`
resolves it (`Option`) and whether it is text-based; `channel.send` is
modelled as appending the formatted message to the list of sent
notifications. -/

/-- The resolved messaging channel: `channel?.isTextBased?.()`. -/
structure Chan where
  isTextBased : Bool
deriving Repr, DecidableEq

/-- The `lastInventories` object: account id → stored snapshot;
a missing key reads as `undefined` (`none`). -/
def Store := String → Option (List String)

/-- The notification text of lines 139–142: header with the account id,
an `Added:` line only when there are additions, a `Removed:` line only
when there are removals. -/
def formatMsg (steamId : String) (d : Diff) : String :=
  let base := "Inventory change detected for STEAM ID: " ++ steamId ++ ":\n"
  let withAdded :=
    if d.added.length ≠ 0 then base ++ "Added: " ++ String.intercalate ", " d.added ++ "\n"
    else base
  if d.removed.length ≠ 0 then
    withAdded ++ "Removed: " ++ String.intercalate ", " d.removed ++ "\n"
  else withAdded

/-- The body of the `for (const steamId of STEAM_IDS)` loop
(lines 121–153), acting on the pair (store, notifications sent so far):
a failed fetch (`null`) leaves both untouched (`continue`); on success,
if a stored snapshot exists and is non-empty the diff is computed and,
when non-empty and the channel is a text-based channel, the formatted
message is sent; finally the store entry is overwritten. -/
def sweepStep (fetchResult : String → Option (List String)) (channel : Option Chan)
    (acc : Store × List String) (steamId : String) : Store × List String :=
  match fetchResult steamId with
  | none => acc
  | some newItems =>
    let msgs :=
      match acc.1 steamId with
      | some lastItems =>
        if lastItems.length > 0 then
          let d := diffInventories lastItems newItems
          if d.added.length ≠ 0 ∨ d.removed.length ≠ 0 then
            match channel with
            | some ch =>
              if ch.isTextBased then acc.2 ++ [formatMsg steamId d] else acc.2
            | none => acc.2
          else acc.2
        else acc.2
      | none => acc.2
    (fun id => if id = steamId then some newItems else acc.1 id, msgs)

/-- One full sweep `checkChanges()`: the sequential account loop,
starting from the current store with no notifications sent. -/
def checkChanges (fetchResult : String → Option (List String)) (channel : Option Chan)
    (steamIds : List String) (store0 : Store) : Store × List String :=
  steamIds.foldl (sweepStep fetchResult channel) (store0, [])

theorem sweepStep_fetch_failure (fetchResult : String → Option (List String))
    (channel : Option Chan) (acc : Store × List String) (steamId : String)
    (h : fetchResult steamId = none) :
    sweepStep fetchResult channel acc steamId = acc := by
  simp [sweepStep, h]

theorem sweepStep_fst (fetchResult : String → Option (List String))
    (channel : Option Chan) (acc : Store × List String) (steamId : String) :
    (sweepStep fetchResult channel acc steamId).1 =
      match fetchResult steamId with
      | none => acc.1
      | some newItems => fun id => if id = steamId then some newItems else acc.1 id := by
  cases h : fetchResult steamId <;> simp [sweepStep, h]

theorem foldl_sweepStep_not_mem (fetchResult : String → Option (List String))
    (channel : Option Chan) (ids : List String) :
    ∀ (acc : Store × List String) (y : String), y ∉ ids →
      ((ids.foldl (sweepStep fetchResult channel) acc).1 y = acc.1 y) := by
  induction ids with
  | nil => intro acc y _; rfl
  | cons x t ih =>
    intro acc y hy
    rw [List.foldl_cons]
    have hyx : y ≠ x := fun h => hy (h ▸ List.mem_cons_self x t)
    have hyt : y ∉ t := fun h => hy (List.mem_cons_of_mem x h)
    rw [ih _ y hyt, sweepStep_fst]
    cases h : fetchResult x <;> simp [hyx]

theorem foldl_sweepStep_fst_congr (fetchResult : String → Option (List String))
    (ids : List String) :
    ∀ (channel channel2 : Option Chan) (acc acc2 : Store × List String),
      acc.1 = acc2.1 →
      (ids.foldl (sweepStep fetchResult channel) acc).1 =
        (ids.foldl (sweepStep fetchResult channel2) acc2).1 := by
  induction ids with
  | nil => intro _ _ _ _ h; exact h
  | cons x t ih =>
    intro channel channel2 acc acc2 h
    rw [List.foldl_cons, List.foldl_cons]
    refine ih channel channel2 _ _ ?_
    rw [sweepStep_fst, sweepStep_fst, h]

/-- **C5**. A sweep in which account `y`'s fetch fails behaves exactly
like the same sweep without `y`: `y`'s step changes nothing (no store
update, no notification) and every account after `y` is still processed;
moreover, if `y` occurs nowhere else in the account list, its stored
snapshot after the sweep is untouched. -/
theorem checkChanges_skips_failed_fetch (fetchResult : String → Option (List String))
    (channel : Option Chan) (ids1 ids2 : List String) (y : String) (store0 : Store)
    (hy : fetchResult y = none) :
    checkChanges fetchResult channel (ids1 ++ y :: ids2) store0 =
      checkChanges fetchResult channel (ids1 ++ ids2) store0 ∧
    (y ∉ ids1 ++ ids2 →
      (checkChanges fetchResult channel (ids1 ++ y :: ids2) store0).1 y = store0 y) := by
  have heq : checkChanges fetchResult channel (ids1 ++ y :: ids2) store0 =
      checkChanges fetchResult channel (ids1 ++ ids2) store0 := by
    unfold checkChanges
    rw [List.foldl_append, List.foldl_append, List.foldl_cons,
      sweepStep_fetch_failure fetchResult channel _ y hy]
  refine ⟨heq, fun hnot => ?_⟩
  rw [heq]
  unfold checkChanges
  exact foldl_sweepStep_not_mem fetchResult channel _ _ y hnot

/-- Witness for **C5** on a concrete two-account sweep with a failing
middle account. -/
theorem checkChanges_skips_failed_fetch_witness :
    checkChanges (fun i => if i = "y" then none else some ["x"]) (some ⟨true⟩)
        (["a"] ++ "y" :: ["b"]) (fun _ => none) =
      checkChanges (fun i => if i = "y" then none else some ["x"]) (some ⟨true⟩)
        (["a"] ++ ["b"]) (fun _ => none) :=
  (checkChanges_skips_failed_fetch (fun i => if i = "y" then none else some ["x"])
    (some ⟨true⟩) ["a"] ["b"] "y" (fun _ => none) (by decide)).1

/-- The messaging destination is unavailable: the channel does not
resolve, or resolves to something that is not text-based. -/
def destUnavailable (channel : Option Chan) : Prop :=
  ∀ c, channel = some c → c.isTextBased = false

/-- **C6**. With the messaging destination unavailable, a sweep step
with a successful fetch sends nothing, still overwrites the account's
stored snapshot with the current one, and the store produced by a whole
sweep is the same as with any other channel — notification delivery
never affects the Account State Store or later accounts. -/
theorem notification_failure_nonblocking (fetchResult : String → Option (List String))
    (channel : Option Chan) (h : destUnavailable channel)
    (acc : Store × List String) (y : String) (items : List String)
    (hf : fetchResult y = some items) :
    ((sweepStep fetchResult channel acc y).2 = acc.2 ∧
      (sweepStep fetchResult channel acc y).1 y = some items) ∧
    ∀ (channel2 : Option Chan) (ids : List String) (store0 : Store),
      (checkChanges fetchResult channel ids store0).1 =
        (checkChanges fetchResult channel2 ids store0).1 := by
  refine ⟨⟨?_, ?_⟩, ?_⟩
  · cases hch : channel with
    | none =>
      cases hl : acc.1 y <;> simp [sweepStep, hf, hl]
    | some c =>
      have hc := h c hch
      cases hl : acc.1 y <;> simp [sweepStep, hf, hl, hc]
  · simp [sweepStep, hf]
  · intro channel2 ids store0
    exact foldl_sweepStep_fst_congr fetchResult ids channel channel2 _ _ rfl

/-- Witness for **C6**: concrete sweep step with an unresolvable
channel. -/
theorem notification_failure_nonblocking_witness :
    (sweepStep (fun _ => some ["x"]) none (⟨fun _ => some ["a"], []⟩ : Store × List String)
        "y").2 = [] ∧
    (sweepStep (fun _ => some ["x"]) none (⟨fun _ => some ["a"], []⟩ : Store × List String)
        "y").1 "y" = some ["x"] :=
  (notification_failure_nonblocking (fun _ => some ["x"]) none
    (fun _ hc => Option.noConfusion hc) ⟨fun _ => some ["a"], []⟩ "y" ["x"] rfl).1

/-- **C2** (amended). On a successful fetch for an account whose stored
prior snapshot exists and is **non-empty**, the sweep step computes the
diff against it, sends the notification exactly when the diff is
non-empty (the channel being available and text-based), and overwrites
the stored state with the current snapshot; when the stored prior
snapshot is the empty snapshot, the diff is skipped and nothing is sent,
but the stored state is still overwritten. -/
theorem sweepStep_success_updates (fetchResult : String → Option (List String))
    (c : Chan) (acc : Store × List String) (y : String) (items lastItems : List String)
    (hf : fetchResult y = some items) (hlast : acc.1 y = some lastItems)
    (hch : c.isTextBased = true) :
    (sweepStep fetchResult (some c) acc y).1 y = some items ∧
    (0 < lastItems.length →
      (sweepStep fetchResult (some c) acc y).2 =
        if (diffInventories lastItems items).added.length ≠ 0 ∨
            (diffInventories lastItems items).removed.length ≠ 0 then
          acc.2 ++ [formatMsg y (diffInventories lastItems items)]
        else acc.2) ∧
    (lastItems.length = 0 → (sweepStep fetchResult (some c) acc y).2 = acc.2) := by
  refine ⟨by simp [sweepStep, hf], fun hpos => ?_, fun hzero => ?_⟩
  · simp [sweepStep, hf, hlast, hpos, hch]
  · simp [sweepStep, hf, hlast, hzero]

/-- Witness for **C2** at a concrete account with a non-empty stored
snapshot. -/
theorem sweepStep_success_updates_witness :
    (sweepStep (fun _ => some ["x"]) (some ⟨true⟩)
        (⟨fun _ => some ["a"], []⟩ : Store × List String) "y").1 "y" = some ["x"] :=
  (sweepStep_success_updates (fun _ => some ["x"]) ⟨true⟩ ⟨fun _ => some ["a"], []⟩
    "y" ["x"] ["a"] rfl rfl rfl).1

/-- Counterexample for **C2** as stated: account `"acct"` has the stored
prior snapshot `some []` (the empty snapshot), the fetch succeeds with
`["x"]`, the channel is available and text-based, and the diff of the
stored snapshot against the current one is non-empty — yet the sweep
sends no notification, because line 131's guard
`lastItems && lastItems.length > 0` skips diffing for an empty stored
snapshot; the stored state is nevertheless overwritten. -/
theorem checkChanges_empty_prior_no_notification :
    ((diffInventories [] ["x"]).added.length ≠ 0 ∨
      (diffInventories [] ["x"]).removed.length ≠ 0) ∧
    (checkChanges (fun _ => some ["x"]) (some ⟨true⟩) ["acct"] (fun _ => some [])).2 = [] ∧
    (checkChanges (fun _ => some ["x"]) (some ⟨true⟩) ["acct"] (fun _ => some [])).1 "acct" =
      some ["x"] := by
  refine ⟨by decide, by decide, by decide⟩

/-! ## Periodic loop timing (`setInterval(checkChanges, 600 * 1000)`,
bot.js line 182)

JS `setInterval` fires the callback every `intervalMs` of wall-clock
time and does **not** await the promise returned by the previous
invocation of the `async` callback: the n-th firing starts the n-th
sweep unconditionally.  A sweep suspends inside `await delay(...)`
during rate-limit backoff, so its duration is at least the sum of the
backoff delays of its account loop. -/

/-- The polling interval of line 182: 600 seconds. -/
def intervalMs : Nat := 600 * 1000

/-- Start time of the n-th sweep: the n-th timer firing.  `setInterval`
fires on the wall clock regardless of whether the previous `checkChanges`
invocation has completed. -/
def sweepStart (n : Nat) : Nat := intervalMs * n

/-- Sweep `m` is still inside its account loop strictly before
`sweepStart m + duration m`; `overlaps duration m n` says the later
sweep `n` begins while sweep `m` is still running. -/
def overlaps (duration : Nat → Nat) (m n : Nat) : Prop :=
  m < n ∧ sweepStart n < sweepStart m + duration m

/-- The time one sweep provably spends suspended in `await delay(...)`:
the sum, over the sequential account loop of `checkChanges`, of the
backoff delays of each account's `fetchInventory` call (a lower bound on
the sweep's duration — network time comes on top). -/
def sweepDelayMs (resps : String → Nat → Response) (steamIds : List String) : Nat :=
  (steamIds.map (fun id => (fetchInventory (resps id)).delayMs)).sum

/-- Counterexample for **C3** as stated: with two tracked accounts whose
fetches answer 429 on every attempt, one sweep awaits
2 × (2 min + 4 min) = 720000 ms of backoff alone, which exceeds the
600000 ms interval, so the timer's second firing starts a new sweep while
the first sweep's account loop is still suspended in a backoff wait: the
two sweeps overlap. -/
theorem sweeps_overlap_counterexample :
    overlaps
      (fun _ => sweepDelayMs (fun _ _ => Response.status 429 ⟨none, none⟩)
        ["account1", "account2"]) 1 2 := by
  constructor
  · decide
  · decide

/-- **C3** (amended). `setInterval` starts a new sweep at every firing
whether or not the previous sweep has completed; sweeps are guaranteed
not to overlap only when the earlier sweep's duration is at most the
600-second interval. -/
theorem sweeps_disjoint_of_fast (duration : Nat → Nat) (m n : Nat)
    (hmn : m < n) (hfast : duration m ≤ intervalMs) :
    ¬ overlaps duration m n := by
  rintro ⟨-, hlt⟩
  simp only [sweepStart, intervalMs] at hlt
  simp only [intervalMs] at hfast
  omega

/-- Witness for **C3**: a sweep of duration zero never overlaps the next
one. -/
theorem sweeps_disjoint_of_fast_witness : ¬ overlaps (fun _ => 0) 1 2 :=
  sweeps_disjoint_of_fast (fun _ => 0) 1 2 (by decide) (by decide)

/-! ## Startup configuration (bot.js lines 12–22 and 161–183)

`STEAM_IDS` is split on commas, trimmed, and blank entries dropped;
an empty result is fatal (`process.exit(1)`) before the Discord client
is created, before any fetch and before the interval timer is set.  The
JS string primitives `split(',')` and `trim()` are embedded on character
lists so that they evaluate. -/

/-- JS `raw.split(',')`: cut the character list at every comma;
`"".split(',')` is `[""]`. -/
def splitChars (sep : Char) : List Char → List (List Char)
  | [] => [[]]
  | c :: rest =>
    match splitChars sep rest with
    | [] => if c = sep then [[], [c]] else [[c]]
    | h :: t => if c = sep then [] :: h :: t else (c :: h) :: t

/-- JS `id.trim()`: strip leading and trailing whitespace. -/
def trimChars (cs : List Char) : List Char :=
  ((cs.dropWhile Char.isWhitespace).reverse.dropWhile Char.isWhitespace).reverse

/-- Lines 12–14: `(process.env.STEAM_IDS || "").split(',')
.map(id => id.trim()).filter(Boolean)` — blank strings are falsy and are
dropped. -/
def parseSteamIds (raw : String) : List String :=
  (((splitChars ',' raw.data).map (fun cs => String.mk (trimChars cs))).filter
    (fun s => s ≠ ""))

/-- Observable startup effects in program order. -/
inductive StartupAction where
  | exitProcess (code : Nat)
  | clientLogin
  | initialFetch (steamId : String)
  | scheduleSweep (everyMs : Nat)
deriving Repr, DecidableEq

/-- Startup control flow (lines 19–22, 161–183): with an empty id list
the process exits with status 1 at once; otherwise the client logs in,
the ready handler runs the baseline fetch over all ids, and only then
installs the periodic `checkChanges` timer. -/
def startupActions (raw : String) : List StartupAction :=
  let ids := parseSteamIds raw
  if ids.length = 0 then [StartupAction.exitProcess 1]
  else
    StartupAction.clientLogin ::
      (ids.map StartupAction.initialFetch ++ [StartupAction.scheduleSweep intervalMs])

/-- **C10**. When the parsed account-identifier list is empty, startup
performs exactly one effect: exiting the process with the non-zero
status 1 — in particular no fetch happens and no periodic sweep is ever
scheduled. -/
theorem startup_exits_on_empty_ids (raw : String) (h : parseSteamIds raw = []) :
    startupActions raw = [StartupAction.exitProcess 1] ∧
    (∀ steamId, StartupAction.initialFetch steamId ∉ startupActions raw) ∧
    (∀ ms, StartupAction.scheduleSweep ms ∉ startupActions raw) ∧ (1 : Nat) ≠ 0 := by
  refine ⟨?_, ?_, ?_, one_ne_zero⟩ <;> simp [startupActions, h]

/-- Witness for **C10**: the configuration value `" , ,"` parses to an
empty id list and startup only exits with status 1. -/
theorem startup_exits_on_empty_ids_witness :
    startupActions " , ," = [StartupAction.exitProcess 1] :=
  (startup_exits_on_empty_ids " , ," (by decide)).1

end InventoryBot
